import Mathlib

/-!
Shallow embedding of the Vulkan bootstrap program (`blah.cpp`): the
capability-negotiation and resource-acquisition sequencer.  Driver and
windowing calls are modelled by explicit inputs (`Host`) and an event
trace; machine handles are abstract.  The compile-time diagnostics
toggle `enableValidationLayers` (set by `NDEBUG`) is passed as an
explicit boolean parameter to each function that reads it.
-/

namespace VulkanBoot

/-- The `VK_QUEUE_GRAPHICS_BIT` from the Vulkan headers. -/
def VK_QUEUE_GRAPHICS_BIT : Nat := 1

/-- The `VK_QUEUE_COMPUTE_BIT` from the Vulkan headers. -/
def VK_QUEUE_COMPUTE_BIT : Nat := 2

/-- The slice of `VkQueueFamilyProperties` the program reads: the
capability flag bitmask `queueFlags`. -/
structure QueueFamilyProperties where
  queueFlags : Nat
  deriving DecidableEq, Repr

/-- The C++ loop condition `queueFamily.queueFlags & VK_QUEUE_GRAPHICS_BIT`
(nonzero test of the masked flags). -/
def supportsGraphics (qf : QueueFamilyProperties) : Bool :=
  decide ((qf.queueFlags &&& VK_QUEUE_GRAPHICS_BIT) ≠ 0)

/-- The `struct QueueFamilyIndices` from the source. -/
structure QueueFamilyIndices where
  graphicsFamily : Option Nat := none
  deriving DecidableEq, Repr

/-- The `QueueFamilyIndices::isComplete`. -/
def QueueFamilyIndices.isComplete (q : QueueFamilyIndices) : Bool :=
  q.graphicsFamily.isSome

/-- The scan loop of `HelloTriangleApplication::findQueueFamilies`:
for each family, record its index if it has the graphics bit, then
break as soon as the record is complete; otherwise advance `i`. -/
def findQueueFamiliesLoop (indices : QueueFamilyIndices) (i : Nat) :
    List QueueFamilyProperties → QueueFamilyIndices
  | [] => indices
  | qf :: rest =>
    let indices' :=
      if supportsGraphics qf then { indices with graphicsFamily := some i }
      else indices
    if indices'.isComplete then indices'
    else findQueueFamiliesLoop indices' (i + 1) rest

/-- The `HelloTriangleApplication::findQueueFamilies`, as a function of the
device's queue-family table (the two
`vkGetPhysicalDeviceQueueFamilyProperties` calls deliver that table). -/
def findQueueFamilies (queueFamilies : List QueueFamilyProperties) :
    QueueFamilyIndices :=
  findQueueFamiliesLoop {} 0 queueFamilies

/-- The sequence of table indices the scan loop of `findQueueFamilies`
observes, in order: each iteration observes its index, and the loop
breaks right after the record becomes complete. -/
def findQueueFamiliesScan (indices : QueueFamilyIndices) (i : Nat) :
    List QueueFamilyProperties → List Nat
  | [] => []
  | qf :: rest =>
    let indices' :=
      if supportsGraphics qf then { indices with graphicsFamily := some i }
      else indices
    if indices'.isComplete then [i]
    else i :: findQueueFamiliesScan indices' (i + 1) rest

/-- Index-observation trace of `findQueueFamilies` started from an
empty record. -/
def findQueueFamiliesObserved (queueFamilies : List QueueFamilyProperties) :
    List Nat :=
  findQueueFamiliesScan {} 0 queueFamilies

/-- Modelled from the spec words: the index of the first element of a
list satisfying `p`, used to compare `findQueueFamilies` against the
specified first-match policy. -/
def firstIndexWhere (p : α → Bool) : List α → Option Nat
  | [] => none
  | x :: xs => if p x then some 0 else (firstIndexWhere p xs).map (· + 1)

/-- Modelled from the spec words: the first element of a list
satisfying `p`, used to compare device selection against the specified
first-match policy. -/
def firstWhere (p : α → Bool) : List α → Option α
  | [] => none
  | x :: xs => if p x then some x else firstWhere p xs

lemma findQueueFamiliesLoop_eq_firstIndexWhere
    (ds : List QueueFamilyProperties) :
    ∀ i, findQueueFamiliesLoop {} i ds =
      { graphicsFamily := (firstIndexWhere supportsGraphics ds).map (· + i) } := by
  induction ds with
  | nil => intro i; rfl
  | cons qf rest ih =>
    intro i
    by_cases h : supportsGraphics qf = true
    · simp [findQueueFamiliesLoop, firstIndexWhere, h,
        QueueFamilyIndices.isComplete]
    · simp only [Bool.not_eq_true] at h
      simp only [findQueueFamiliesLoop, firstIndexWhere, h,
        QueueFamilyIndices.isComplete, if_false, Bool.false_eq_true,
        Option.isSome_none]
      rw [ih (i + 1)]
      cases hfi : firstIndexWhere supportsGraphics rest with
      | none => simp
      | some j => simp; omega

/-- The `findQueueFamilies` computes exactly the first graphics-capable
index of the table. -/
lemma findQueueFamilies_eq_firstIndexWhere
    (table : List QueueFamilyProperties) :
    (findQueueFamilies table).graphicsFamily =
      firstIndexWhere supportsGraphics table := by
  unfold findQueueFamilies
  rw [findQueueFamiliesLoop_eq_firstIndexWhere]
  cases hfi : firstIndexWhere supportsGraphics table <;> simp

lemma firstIndexWhere_some {p : α → Bool} :
    ∀ {l : List α} {i : Nat}, firstIndexWhere p l = some i →
      i < l.length ∧ ∃ x, l.get? i = some x ∧ p x = true := by
  intro l
  induction l with
  | nil => intro i h; simp [firstIndexWhere] at h
  | cons x xs ih =>
    intro i h
    by_cases hx : p x = true
    · simp [firstIndexWhere, hx] at h
      subst h
      exact ⟨Nat.succ_pos _, x, rfl, hx⟩
    · simp only [Bool.not_eq_true] at hx
      simp [firstIndexWhere, hx] at h
      obtain ⟨j, hj, hji⟩ := h
      obtain ⟨hlt, y, hy, hpy⟩ := ih hj
      subst hji
      exact ⟨by simpa using Nat.succ_lt_succ hlt, y, by simpa using hy, hpy⟩

lemma firstIndexWhere_none {p : α → Bool} :
    ∀ {l : List α}, (∀ x ∈ l, p x = false) →
      firstIndexWhere p l = none := by
  intro l
  induction l with
  | nil => intro _; rfl
  | cons x xs ih =>
    intro h
    have hx := h x (List.mem_cons_self x xs)
    simp [firstIndexWhere, hx, ih fun y hy => h y (List.mem_cons_of_mem x hy)]

/-- A physical device, as the program observes it: its queue-family
table (the only device data the program reads). -/
structure PhysicalDevice where
  queueFamilies : List QueueFamilyProperties
  deriving DecidableEq, Repr

/-- The `HelloTriangleApplication::isDeviceSuitable`: delegates to
`findQueueFamilies` and tests completeness. -/
def isDeviceSuitable (device : PhysicalDevice) : Bool :=
  (findQueueFamilies device.queueFamilies).isComplete

/-- The owned resources the program acquires and releases. -/
inductive Handle
  | Glfw
  | Window
  | Instance
  | DebugMessenger
  | Device
  deriving DecidableEq, Repr

/-- Observable actions of the program against the driver and the
windowing library.  `checkSuitable i` is the suitability check on
device index `i` (which performs that device's queue-family query);
`callCreateInstance` is the `vkCreateInstance` call being issued. -/
inductive Event
  | create (h : Handle)
  | destroy (h : Handle)
  | checkSuitable (i : Nat)
  | callCreateInstance
  deriving DecidableEq, Repr

/-- The spec's error taxonomy, one constructor per `throw` site of the
source (plus `BadOptionalAccess` for `std::optional::value()` on an
empty optional). -/
inductive BootError
  | ConfigurationError
  | InstanceCreationFailed
  | ExtensionUnavailable
  | NoDeviceFound
  | NoSuitableDevice
  | DeviceCreationFailed
  | BadOptionalAccess
  deriving DecidableEq, Repr

/-- The `what()` string of the exception each error site throws. -/
def BootError.message : BootError → String
  | .ConfigurationError => "validation layers requested, but not available!"
  | .InstanceCreationFailed => "failed to create instance!"
  | .ExtensionUnavailable => "failed to set up debug messenger!"
  | .NoDeviceFound => "failed to find GPUs with Vulkan support!"
  | .NoSuitableDevice => "failed to find a suitable GPU!"
  | .DeviceCreationFailed => "failed to create logical device!"
  | .BadOptionalAccess => "bad optional access"

/-- The environment the program runs against: what the host reports
and whether each fallible driver call succeeds. -/
structure Host where
  installedLayers : List String
  devices : List PhysicalDevice
  instanceCreateOk : Bool
  debugMessengerOk : Bool
  deviceCreateOk : Bool
  deriving DecidableEq, Repr

/-- The global `validationLayers` list of the source. -/
def validationLayers : List String := ["VK_LAYER_KHRONOS_validation"]

/-- The `VK_EXT_DEBUG_UTILS_EXTENSION_NAME`. -/
def VK_EXT_DEBUG_UTILS_EXTENSION_NAME : String := "VK_EXT_debug_utils"

/-- The `VK_KHR_PORTABILITY_ENUMERATION_EXTENSION_NAME`. -/
def VK_KHR_PORTABILITY_ENUMERATION_EXTENSION_NAME : String :=
  "VK_KHR_portability_enumeration"

/-- The `VK_KHR_GET_PHYSICAL_DEVICE_PROPERTIES_2_EXTENSION_NAME`. -/
def VK_KHR_GET_PHYSICAL_DEVICE_PROPERTIES_2_EXTENSION_NAME : String :=
  "VK_KHR_get_physical_device_properties2"

/-- The `VK_KHR_PORTABILITY_SUBSET_EXTENSION_NAME`. -/
def VK_KHR_PORTABILITY_SUBSET_EXTENSION_NAME : String :=
  "VK_KHR_portability_subset"

/-- The inner loop of `checkValidationLayerSupport`: scan the available
layers for an exact `strcmp` match, breaking at the first hit. -/
def layerFoundLoop (layerName : String) : List String → Bool
  | [] => false
  | l :: rest => if layerName = l then true else layerFoundLoop layerName rest

/-- The `HelloTriangleApplication::checkValidationLayerSupport`,
parameterised (as in the spec's contract) by the requested layer list
the source fixes to `validationLayers` and by the host's installed
layers: for each requested name, scan the available layers; return
false as soon as one is not found, true after all are found. -/
def checkValidationLayerSupport (requested installed : List String) : Bool :=
  match requested with
  | [] => true
  | layerName :: rest =>
    if layerFoundLoop layerName installed then
      checkValidationLayerSupport rest installed
    else false

/-- The `HelloTriangleApplication::getRequiredExtensions`, as a function of
the windowing collaborator's extension list (what
`glfwGetRequiredInstanceExtensions` returns) and the diagnostics
toggle. -/
def getRequiredExtensions (glfwExtensions : List String)
    (enableValidationLayers : Bool) : List String :=
  if enableValidationLayers then
    glfwExtensions ++
      [VK_EXT_DEBUG_UTILS_EXTENSION_NAME,
       VK_KHR_PORTABILITY_ENUMERATION_EXTENSION_NAME,
       VK_KHR_GET_PHYSICAL_DEVICE_PROPERTIES_2_EXTENSION_NAME]
  else glfwExtensions

/-- The `HelloTriangleApplication::createInstance`: the layer check throws
`ConfigurationError` before `vkCreateInstance` is ever issued;
otherwise the call is issued and either yields the instance handle or
throws `InstanceCreationFailed`. -/
def createInstance (enableValidationLayers : Bool) (host : Host) :
    List Event × Except BootError Unit :=
  if enableValidationLayers &&
      !(checkValidationLayerSupport validationLayers host.installedLayers) then
    ([], Except.error BootError.ConfigurationError)
  else if host.instanceCreateOk then
    ([Event.callCreateInstance, Event.create Handle.Instance], Except.ok ())
  else
    ([Event.callCreateInstance], Except.error BootError.InstanceCreationFailed)

/-- The `HelloTriangleApplication::setupDebugMessenger`: a no-op unless
diagnostics are enabled; throws `ExtensionUnavailable` when the
runtime-resolved create entry point fails. -/
def setupDebugMessenger (enableValidationLayers : Bool) (host : Host) :
    List Event × Except BootError Unit :=
  if !enableValidationLayers then ([], Except.ok ())
  else if host.debugMessengerOk then
    ([Event.create Handle.DebugMessenger], Except.ok ())
  else ([], Except.error BootError.ExtensionUnavailable)

/-- The selection loop of `pickPhysicalDevice`: check each device in
order, stopping (`break`) at the first suitable one. -/
def pickLoop (i : Nat) : List PhysicalDevice → List Event × Option PhysicalDevice
  | [] => ([], none)
  | d :: rest =>
    if isDeviceSuitable d then ([Event.checkSuitable i], some d)
    else
      let r := pickLoop (i + 1) rest
      (Event.checkSuitable i :: r.1, r.2)

/-- The `HelloTriangleApplication::pickPhysicalDevice`: throws
`NoDeviceFound` when the enumeration count is zero, then scans for the
first suitable device and throws `NoSuitableDevice` when none is
retained. -/
def pickPhysicalDevice (devices : List PhysicalDevice) :
    List Event × Except BootError PhysicalDevice :=
  if devices.length = 0 then ([], Except.error BootError.NoDeviceFound)
  else
    match pickLoop 0 devices with
    | (evs, some d) => (evs, Except.ok d)
    | (evs, none) => (evs, Except.error BootError.NoSuitableDevice)

/-- The device-extension list `createLogicalDevice` builds. -/
def deviceExtensionList (enableValidationLayers : Bool) : List String :=
  if enableValidationLayers then [VK_KHR_PORTABILITY_SUBSET_EXTENSION_NAME]
  else []

/-- The `HelloTriangleApplication::createLogicalDevice`: re-runs
`findQueueFamilies` on the selected device, reads
`graphicsFamily.value()` (throwing `BadOptionalAccess` when the
optional is empty), then issues `vkCreateDevice` with the
diagnostics-dependent device-extension list and retrieves the queue of
(family index, slot 0).  Returns the bound family index together with
the enabled device extensions. -/
def createLogicalDevice (enableValidationLayers : Bool) (host : Host)
    (physicalDevice : PhysicalDevice) :
    List Event × Except BootError (Nat × List String) :=
  match (findQueueFamilies physicalDevice.queueFamilies).graphicsFamily with
  | none => ([], Except.error BootError.BadOptionalAccess)
  | some idx =>
    if host.deviceCreateOk then
      ([Event.create Handle.Device],
       Except.ok (idx, deviceExtensionList enableValidationLayers))
    else ([], Except.error BootError.DeviceCreationFailed)

/-- The `HelloTriangleApplication::initVulkan`: the fixed bootstrap
sequence, short-circuiting on the first thrown error and accumulating
the event trace. -/
def initVulkan (enableValidationLayers : Bool) (host : Host) :
    List Event × Except BootError Unit :=
  match createInstance enableValidationLayers host with
  | (tr1, Except.error e) => (tr1, Except.error e)
  | (tr1, Except.ok _) =>
    match setupDebugMessenger enableValidationLayers host with
    | (tr2, Except.error e) => (tr1 ++ tr2, Except.error e)
    | (tr2, Except.ok _) =>
      match pickPhysicalDevice host.devices with
      | (tr3, Except.error e) => (tr1 ++ tr2 ++ tr3, Except.error e)
      | (tr3, Except.ok d) =>
        match createLogicalDevice enableValidationLayers host d with
        | (tr4, Except.error e) => (tr1 ++ tr2 ++ tr3 ++ tr4, Except.error e)
        | (tr4, Except.ok _) => (tr1 ++ tr2 ++ tr3 ++ tr4, Except.ok ())

/-- The `HelloTriangleApplication::initWindow`: `glfwInit` then
`glfwCreateWindow` (neither checked for failure). -/
def initWindowTrace : List Event :=
  [Event.create Handle.Glfw, Event.create Handle.Window]

/-- The `HelloTriangleApplication::cleanup`: destroy the logical device,
then (only when diagnostics are enabled) the debug messenger, then the
instance, the window, and terminate the windowing library. -/
def cleanupTrace (enableValidationLayers : Bool) : List Event :=
  [Event.destroy Handle.Device] ++
    (if enableValidationLayers then [Event.destroy Handle.DebugMessenger]
     else []) ++
    [Event.destroy Handle.Instance, Event.destroy Handle.Window,
     Event.destroy Handle.Glfw]

/-- The `HelloTriangleApplication::run`: `initWindow`, `initVulkan`,
`mainLoop` (no observable driver events), `cleanup`.  A thrown error
propagates out; `cleanup` runs only on the normal path. -/
def run (enableValidationLayers : Bool) (host : Host) :
    List Event × Except BootError Unit :=
  match initVulkan enableValidationLayers host with
  | (trV, Except.error e) => (initWindowTrace ++ trV, Except.error e)
  | (trV, Except.ok _) =>
    (initWindowTrace ++ trV ++ cleanupTrace enableValidationLayers,
     Except.ok ())

/-- The `EXIT_SUCCESS`. -/
def EXIT_SUCCESS : Nat := 0

/-- The `EXIT_FAILURE`. -/
def EXIT_FAILURE : Nat := 1

/-- The observable outcome of the process: its exit code and what was
written to `std::cerr` at top level. -/
structure ProcessResult where
  exitCode : Nat
  errOutput : List String
  deriving DecidableEq, Repr

/-- The `main`: run the application; catch any exception, print its
message to the error sink and exit with `EXIT_FAILURE`; otherwise exit
with `EXIT_SUCCESS`. -/
def main (enableValidationLayers : Bool) (host : Host) : ProcessResult :=
  match (run enableValidationLayers host).2 with
  | Except.ok _ => { exitCode := EXIT_SUCCESS, errOutput := [] }
  | Except.error e => { exitCode := EXIT_FAILURE, errOutput := [e.message] }

/-- The handles a trace creates, in order. -/
def createdHandles (tr : List Event) : List Handle :=
  tr.filterMap fun ev =>
    match ev with
    | Event.create h => some h
    | _ => none

/-- The handles a trace destroys, in order. -/
def destroyedHandles (tr : List Event) : List Handle :=
  tr.filterMap fun ev =>
    match ev with
    | Event.destroy h => some h
    | _ => none

/-- Predicate: `child`'s validity interval is nested inside `parent`'s in trace
`tr`: `child` is created and destroyed strictly between `parent`'s
creation and destruction. -/
def intervalNested (tr : List Event) (parent child : Handle) : Prop :=
  ∃ pre mid post,
    tr = pre ++ Event.create parent :: mid ++ Event.destroy parent :: post
    ∧ Event.create child ∈ mid ∧ Event.destroy child ∈ mid

lemma firstIndexWhere_isSome_of_mem {p : α → Bool} {l : List α} {x : α}
    (hm : x ∈ l) (hp : p x = true) :
    (firstIndexWhere p l).isSome = true := by
  induction l with
  | nil => cases hm
  | cons y ys ih =>
    by_cases hy : p y = true
    · simp [firstIndexWhere, hy]
    · simp only [Bool.not_eq_true] at hy
      rcases List.mem_cons.mp hm with h | h
      · subst h; rw [hy] at hp; cases hp
      · simp [firstIndexWhere, hy]
        cases hfi : firstIndexWhere p ys with
        | none => have := ih h; rw [hfi] at this; cases this
        | some j => simp

lemma firstWhere_some {p : α → Bool} :
    ∀ {l : List α} {x : α}, firstWhere p l = some x → p x = true ∧ x ∈ l := by
  intro l
  induction l with
  | nil => intro x h; simp [firstWhere] at h
  | cons y ys ih =>
    intro x h
    by_cases hy : p y = true
    · simp [firstWhere, hy] at h
      subst h
      exact ⟨hy, List.mem_cons_self y ys⟩
    · simp only [Bool.not_eq_true] at hy
      simp [firstWhere, hy] at h
      obtain ⟨hp, hm⟩ := ih h
      exact ⟨hp, List.mem_cons_of_mem y hm⟩

lemma firstWhere_isSome_of_mem {p : α → Bool} {l : List α} {x : α}
    (hm : x ∈ l) (hp : p x = true) : (firstWhere p l).isSome = true := by
  induction l with
  | nil => cases hm
  | cons y ys ih =>
    by_cases hy : p y = true
    · simp [firstWhere, hy]
    · simp only [Bool.not_eq_true] at hy
      rcases List.mem_cons.mp hm with h | h
      · subst h; rw [hy] at hp; cases hp
      · simp [firstWhere, hy]
        cases hfw : firstWhere p ys with
        | none => have := ih h; rw [hfw] at this; cases this
        | some z => simp

lemma pickLoop_snd (ds : List PhysicalDevice) :
    ∀ i, (pickLoop i ds).2 = firstWhere isDeviceSuitable ds := by
  induction ds with
  | nil => intro i; rfl
  | cons d rest ih =>
    intro i
    by_cases hd : isDeviceSuitable d = true
    · simp [pickLoop, firstWhere, hd]
    · simp only [Bool.not_eq_true] at hd
      simp [pickLoop, firstWhere, hd, ih (i + 1)]

lemma pickLoop_events (ds : List PhysicalDevice) :
    ∀ i, ∀ ev ∈ (pickLoop i ds).1, ∃ j, ev = Event.checkSuitable j := by
  induction ds with
  | nil => intro i ev h; cases h
  | cons d rest ih =>
    intro i ev h
    by_cases hd : isDeviceSuitable d = true
    · simp [pickLoop, hd] at h
      exact ⟨i, h⟩
    · simp only [Bool.not_eq_true] at hd
      simp [pickLoop, hd] at h
      rcases h with h | h
      · exact ⟨i, h⟩
      · exact ih (i + 1) ev h

lemma pickPhysicalDevice_events {ds : List PhysicalDevice} :
    ∀ ev ∈ (pickPhysicalDevice ds).1, ∃ j, ev = Event.checkSuitable j := by
  intro ev h
  unfold pickPhysicalDevice at h
  split at h
  · cases h
  · rcases hr : pickLoop 0 ds with ⟨evs, r⟩
    rw [hr] at h
    have hevs : ∀ ev ∈ evs, ∃ j, ev = Event.checkSuitable j := by
      intro ev hm
      refine pickLoop_events ds 0 ev ?_
      rw [hr]
      exact hm
    cases r <;> simp at h <;> exact hevs ev h

lemma createdHandles_append (a b : List Event) :
    createdHandles (a ++ b) = createdHandles a ++ createdHandles b := by
  simp [createdHandles]

lemma destroyedHandles_append (a b : List Event) :
    destroyedHandles (a ++ b) = destroyedHandles a ++ destroyedHandles b := by
  simp [destroyedHandles]

lemma createdHandles_of_checks {evs : List Event}
    (h : ∀ ev ∈ evs, ∃ j, ev = Event.checkSuitable j) :
    createdHandles evs = [] := by
  rw [createdHandles, List.filterMap_eq_nil_iff]
  intro ev hm
  obtain ⟨j, hj⟩ := h ev hm
  subst hj
  rfl

lemma destroyedHandles_of_checks {evs : List Event}
    (h : ∀ ev ∈ evs, ∃ j, ev = Event.checkSuitable j) :
    destroyedHandles evs = [] := by
  rw [destroyedHandles, List.filterMap_eq_nil_iff]
  intro ev hm
  obtain ⟨j, hj⟩ := h ev hm
  subst hj
  rfl

lemma createInstance_ok {e : Bool} {host : Host} {tr : List Event} {u : Unit}
    (h : createInstance e host = (tr, Except.ok u)) :
    tr = [Event.callCreateInstance, Event.create Handle.Instance] ∧
      host.instanceCreateOk = true := by
  unfold createInstance at h
  split at h
  · simp at h
  · split at h
    · simp at h
      exact ⟨h.symm, by assumption⟩
    · simp at h

lemma setupDebugMessenger_ok {e : Bool} {host : Host} {tr : List Event}
    {u : Unit} (h : setupDebugMessenger e host = (tr, Except.ok u)) :
    tr = if e then [Event.create Handle.DebugMessenger] else [] := by
  unfold setupDebugMessenger at h
  split at h
  · simp at h
    simp_all
  · split at h
    · simp at h
      simp_all
    · simp at h

lemma createLogicalDevice_ok {e : Bool} {host : Host} {d : PhysicalDevice}
    {tr : List Event} {idx : Nat × List String}
    (h : createLogicalDevice e host d = (tr, Except.ok idx)) :
    tr = [Event.create Handle.Device] := by
  unfold createLogicalDevice at h
  rcases hgf : (findQueueFamilies d.queueFamilies).graphicsFamily with _ | j
  · rw [hgf] at h
    simp at h
  · rw [hgf] at h
    by_cases hok : host.deviceCreateOk = true
    · simp [hok] at h
      exact h.1.symm
    · simp only [Bool.not_eq_true] at hok
      simp [hok] at h

lemma createInstance_no_destroy {e : Bool} {host : Host} :
    ∀ hd, Event.destroy hd ∉ (createInstance e host).1 := by
  intro hd
  unfold createInstance
  split
  · simp
  · split <;> simp

lemma setupDebugMessenger_no_destroy {e : Bool} {host : Host} :
    ∀ hd, Event.destroy hd ∉ (setupDebugMessenger e host).1 := by
  intro hd
  unfold setupDebugMessenger
  split
  · simp
  · split <;> simp

lemma createLogicalDevice_no_destroy {e : Bool} {host : Host}
    {d : PhysicalDevice} :
    ∀ hd, Event.destroy hd ∉ (createLogicalDevice e host d).1 := by
  intro hd
  unfold createLogicalDevice
  rcases hgf : (findQueueFamilies d.queueFamilies).graphicsFamily with _ | j
  · simp
  · by_cases hok : host.deviceCreateOk = true
    · simp [hok]
    · simp only [Bool.not_eq_true] at hok
      simp [hok]

lemma pickPhysicalDevice_no_destroy {ds : List PhysicalDevice} :
    ∀ hd, Event.destroy hd ∉ (pickPhysicalDevice ds).1 := by
  intro hd hm
  obtain ⟨j, hj⟩ := pickPhysicalDevice_events _ hm
  cases hj

lemma initVulkan_eq_instErr {e : Bool} {host : Host} {tr1 : List Event}
    {err : BootError} (h : createInstance e host = (tr1, Except.error err)) :
    initVulkan e host = (tr1, Except.error err) := by
  unfold initVulkan
  rw [h]

lemma initVulkan_eq_msgErr {e : Bool} {host : Host} {tr1 tr2 : List Event}
    {u : Unit} {err : BootError}
    (h1 : createInstance e host = (tr1, Except.ok u))
    (h2 : setupDebugMessenger e host = (tr2, Except.error err)) :
    initVulkan e host = (tr1 ++ tr2, Except.error err) := by
  unfold initVulkan
  rw [h1, h2]

lemma initVulkan_eq_pickErr {e : Bool} {host : Host}
    {tr1 tr2 tr3 : List Event} {u1 u2 : Unit} {err : BootError}
    (h1 : createInstance e host = (tr1, Except.ok u1))
    (h2 : setupDebugMessenger e host = (tr2, Except.ok u2))
    (h3 : pickPhysicalDevice host.devices = (tr3, Except.error err)) :
    initVulkan e host = (tr1 ++ tr2 ++ tr3, Except.error err) := by
  unfold initVulkan
  rw [h1, h2, h3]

lemma initVulkan_eq_devErr {e : Bool} {host : Host}
    {tr1 tr2 tr3 tr4 : List Event} {u1 u2 : Unit} {d : PhysicalDevice}
    {err : BootError}
    (h1 : createInstance e host = (tr1, Except.ok u1))
    (h2 : setupDebugMessenger e host = (tr2, Except.ok u2))
    (h3 : pickPhysicalDevice host.devices = (tr3, Except.ok d))
    (h4 : createLogicalDevice e host d = (tr4, Except.error err)) :
    initVulkan e host = (tr1 ++ tr2 ++ tr3 ++ tr4, Except.error err) := by
  unfold initVulkan
  simp [h1, h2, h3, h4]

lemma initVulkan_eq_allOk {e : Bool} {host : Host}
    {tr1 tr2 tr3 tr4 : List Event} {u1 u2 : Unit} {d : PhysicalDevice}
    {idx : Nat × List String}
    (h1 : createInstance e host = (tr1, Except.ok u1))
    (h2 : setupDebugMessenger e host = (tr2, Except.ok u2))
    (h3 : pickPhysicalDevice host.devices = (tr3, Except.ok d))
    (h4 : createLogicalDevice e host d = (tr4, Except.ok idx)) :
    initVulkan e host = (tr1 ++ tr2 ++ tr3 ++ tr4, Except.ok ()) := by
  unfold initVulkan
  simp [h1, h2, h3, h4]

lemma run_eq_err {e : Bool} {host : Host} {trV : List Event}
    {err : BootError} (h : initVulkan e host = (trV, Except.error err)) :
    run e host = (initWindowTrace ++ trV, Except.error err) := by
  unfold run
  rw [h]

lemma run_eq_ok {e : Bool} {host : Host} {trV : List Event}
    (h : initVulkan e host = (trV, Except.ok ())) :
    run e host =
      (initWindowTrace ++ trV ++ cleanupTrace e, Except.ok ()) := by
  unfold run
  rw [h]

lemma initVulkan_no_destroy {e : Bool} {host : Host} :
    ∀ hd, Event.destroy hd ∉ (initVulkan e host).1 := by
  intro hd
  have hCIn := @createInstance_no_destroy e host hd
  have hDMn := @setupDebugMessenger_no_destroy e host hd
  have hPKn := @pickPhysicalDevice_no_destroy host.devices hd
  rcases hCI : createInstance e host with ⟨tr1, r1⟩
  rw [hCI] at hCIn
  cases r1 with
  | error e1 => rw [initVulkan_eq_instErr hCI]; exact hCIn
  | ok u1 =>
    rcases hDM : setupDebugMessenger e host with ⟨tr2, r2⟩
    rw [hDM] at hDMn
    cases r2 with
    | error e2 =>
      rw [initVulkan_eq_msgErr hCI hDM]
      simp [List.mem_append, hCIn, hDMn]
    | ok u2 =>
      rcases hPK : pickPhysicalDevice host.devices with ⟨tr3, r3⟩
      rw [hPK] at hPKn
      cases r3 with
      | error e3 =>
        rw [initVulkan_eq_pickErr hCI hDM hPK]
        simp [List.mem_append, hCIn, hDMn, hPKn]
      | ok d =>
        have hCLn := @createLogicalDevice_no_destroy e host d hd
        rcases hCL : createLogicalDevice e host d with ⟨tr4, r4⟩
        rw [hCL] at hCLn
        cases r4 with
        | error e4 =>
          rw [initVulkan_eq_devErr hCI hDM hPK hCL]
          simp [List.mem_append, hCIn, hDMn, hPKn, hCLn]
        | ok idx =>
          rw [initVulkan_eq_allOk hCI hDM hPK hCL]
          simp [List.mem_append, hCIn, hDMn, hPKn, hCLn]

lemma initVulkan_ok {e : Bool} {host : Host} {trV : List Event}
    (h : initVulkan e host = (trV, Except.ok ())) :
    ∃ pickEvs,
      trV = [Event.callCreateInstance, Event.create Handle.Instance] ++
        (if e then [Event.create Handle.DebugMessenger] else []) ++
        pickEvs ++ [Event.create Handle.Device]
      ∧ (∀ ev ∈ pickEvs, ∃ j, ev = Event.checkSuitable j) := by
  rcases hCI : createInstance e host with ⟨tr1, r1⟩
  cases r1 with
  | error e1 => rw [initVulkan_eq_instErr hCI] at h; simp at h
  | ok u1 =>
    rcases hDM : setupDebugMessenger e host with ⟨tr2, r2⟩
    cases r2 with
    | error e2 => rw [initVulkan_eq_msgErr hCI hDM] at h; simp at h
    | ok u2 =>
      rcases hPK : pickPhysicalDevice host.devices with ⟨tr3, r3⟩
      cases r3 with
      | error e3 => rw [initVulkan_eq_pickErr hCI hDM hPK] at h; simp at h
      | ok d =>
        rcases hCL : createLogicalDevice e host d with ⟨tr4, r4⟩
        cases r4 with
        | error e4 => rw [initVulkan_eq_devErr hCI hDM hPK hCL] at h; simp at h
        | ok idx =>
          rw [initVulkan_eq_allOk hCI hDM hPK hCL] at h
          simp only [Prod.mk.injEq] at h
          obtain ⟨htr1, _⟩ := createInstance_ok hCI
          have htr2 := setupDebugMessenger_ok hDM
          have htr4 := createLogicalDevice_ok hCL
          have hev : ∀ ev ∈ tr3, ∃ j, ev = Event.checkSuitable j := by
            intro ev hm
            have hp := @pickPhysicalDevice_events host.devices ev
            rw [hPK] at hp
            exact hp hm
          refine ⟨tr3, ?_, hev⟩
          rw [← h.1]
          subst htr1 htr2 htr4
          simp [List.append_assoc]

lemma run_ok {e : Bool} {host : Host} {trR : List Event}
    (h : run e host = (trR, Except.ok ())) :
    ∃ pickEvs,
      trR = initWindowTrace ++
        ([Event.callCreateInstance, Event.create Handle.Instance] ++
          (if e then [Event.create Handle.DebugMessenger] else []) ++
          pickEvs ++ [Event.create Handle.Device]) ++
        cleanupTrace e
      ∧ (∀ ev ∈ pickEvs, ∃ j, ev = Event.checkSuitable j) := by
  rcases hIV : initVulkan e host with ⟨trV, rV⟩
  cases rV with
  | error e1 =>
    rw [run_eq_err hIV] at h
    simp at h
  | ok u =>
    cases u
    rw [run_eq_ok hIV] at h
    simp only [Prod.mk.injEq] at h
    obtain ⟨pickEvs, htrV, hev⟩ := initVulkan_ok hIV
    refine ⟨pickEvs, ?_, hev⟩
    rw [← h.1, htrV]

lemma firstWhere_none {p : α → Bool} :
    ∀ {l : List α}, (∀ x ∈ l, p x = false) → firstWhere p l = none := by
  intro l
  induction l with
  | nil => intro _; rfl
  | cons x xs ih =>
    intro h
    have hx := h x (List.mem_cons_self x xs)
    simp [firstWhere, hx, ih fun y hy => h y (List.mem_cons_of_mem x hy)]

lemma pickPhysicalDevice_snd {ds : List PhysicalDevice} (hne : ds ≠ []) :
    (pickPhysicalDevice ds).2 =
      match firstWhere isDeviceSuitable ds with
      | some d => Except.ok d
      | none => Except.error BootError.NoSuitableDevice := by
  unfold pickPhysicalDevice
  have hlen : ¬ ds.length = 0 := by simpa using hne
  rw [if_neg hlen]
  rcases hr : pickLoop 0 ds with ⟨evs, r⟩
  have hsnd := pickLoop_snd ds 0
  rw [hr] at hsnd
  cases r <;> simp at hsnd <;> simp [← hsnd]

lemma pickPhysicalDevice_ok_suitable {ds : List PhysicalDevice}
    {evs : List Event} {d : PhysicalDevice}
    (h : pickPhysicalDevice ds = (evs, Except.ok d)) :
    isDeviceSuitable d = true := by
  unfold pickPhysicalDevice at h
  split at h
  · simp at h
  · rcases hr : pickLoop 0 ds with ⟨evs2, r⟩
    rw [hr] at h
    have hsnd := pickLoop_snd ds 0
    rw [hr] at hsnd
    cases r with
    | none => simp at h
    | some d2 =>
      simp at h hsnd
      obtain ⟨hp, _⟩ := firstWhere_some hsnd.symm
      rw [← h.2]
      exact hp

lemma layerFoundLoop_iff_mem (name : String) (I : List String) :
    layerFoundLoop name I = true ↔ name ∈ I := by
  induction I with
  | nil => simp [layerFoundLoop]
  | cons l rest ih =>
    by_cases hl : name = l
    · simp [layerFoundLoop, hl]
    · simp [layerFoundLoop, hl, ih]

lemma checkValidationLayerSupport_iff (L I : List String) :
    checkValidationLayerSupport L I = true ↔ ∀ l ∈ L, l ∈ I := by
  induction L with
  | nil => simp [checkValidationLayerSupport]
  | cons hd tl ih =>
    by_cases hf : layerFoundLoop hd I = true
    · simp [checkValidationLayerSupport, hf, ih,
        (layerFoundLoop_iff_mem hd I).mp hf]
    · simp only [Bool.not_eq_true] at hf
      simp only [checkValidationLayerSupport, hf, Bool.false_eq_true,
        if_false]
      constructor
      · intro hc; cases hc
      · intro hall
        have : hd ∈ I := hall hd (List.mem_cons_self hd tl)
        rw [← layerFoundLoop_iff_mem] at this
        rw [hf] at this
        cases this

/-- The compute-only queue family of the spec's worked example. -/
def computeFamilyExample : QueueFamilyProperties :=
  { queueFlags := VK_QUEUE_COMPUTE_BIT }

/-- A graphics-capable queue family. -/
def graphicsFamilyExample : QueueFamilyProperties :=
  { queueFlags := VK_QUEUE_GRAPHICS_BIT }

/-- A device with no graphics-capable family (unsuitable). -/
def computeOnlyDevice : PhysicalDevice :=
  { queueFamilies := [computeFamilyExample] }

/-- A suitable device (graphics family at index 0). -/
def graphicsDeviceA : PhysicalDevice :=
  { queueFamilies := [graphicsFamilyExample] }

/-- A second, distinct suitable device (graphics family at index 1). -/
def graphicsDeviceB : PhysicalDevice :=
  { queueFamilies := [computeFamilyExample, graphicsFamilyExample] }

/-- C1: on every device whose queue-family table contains a
graphics-capable family, `findQueueFamilies` performs one linear scan
and records exactly the index of the first family whose flags include
the graphics bit, with early exit; on the table
compute, graphics, graphics it returns index 1, and the scan observes
only indices 0 and 1 (never 2). -/
theorem C1_findQueueFamilies_first_match (table : List QueueFamilyProperties)
    (h : ∃ qf ∈ table, supportsGraphics qf = true) :
    (findQueueFamilies table).graphicsFamily =
        firstIndexWhere supportsGraphics table
    ∧ (findQueueFamilies table).graphicsFamily.isSome = true
    ∧ findQueueFamilies
        [computeFamilyExample, graphicsFamilyExample, graphicsFamilyExample] =
        { graphicsFamily := some 1 }
    ∧ findQueueFamiliesObserved
        [computeFamilyExample, graphicsFamilyExample, graphicsFamilyExample] =
        [0, 1] := by
  obtain ⟨qf, hm, hp⟩ := h
  refine ⟨findQueueFamilies_eq_firstIndexWhere table, ?_, by decide, by decide⟩
  rw [findQueueFamilies_eq_firstIndexWhere]
  exact firstIndexWhere_isSome_of_mem hm hp

/-- Witness for C1 at the spec's worked example table. -/
theorem C1_witness :
    (findQueueFamilies
        [computeFamilyExample, graphicsFamilyExample,
         graphicsFamilyExample]).graphicsFamily =
      firstIndexWhere supportsGraphics
        [computeFamilyExample, graphicsFamilyExample, graphicsFamilyExample] :=
  (C1_findQueueFamilies_first_match
    [computeFamilyExample, graphicsFamilyExample, graphicsFamilyExample]
    ⟨graphicsFamilyExample, by decide, by decide⟩).1

/-- C2: device selection retains the first device satisfying the
suitability predicate (first-match wins), fails with `NoSuitableDevice`
when no enumerated device is suitable, and on the list
unsuitable, suitable, suitable it picks index 1 after checking only
indices 0 and 1 — no suitability check on index 2. -/
theorem C2_pick_first_suitable (devices : List PhysicalDevice)
    (hne : devices ≠ []) :
    ((pickPhysicalDevice devices).2 =
      match firstWhere isDeviceSuitable devices with
      | some d => Except.ok d
      | none => Except.error BootError.NoSuitableDevice)
    ∧ ((∀ d ∈ devices, isDeviceSuitable d = false) →
        (pickPhysicalDevice devices).2 =
          Except.error BootError.NoSuitableDevice)
    ∧ pickPhysicalDevice [computeOnlyDevice, graphicsDeviceA, graphicsDeviceB] =
        ([Event.checkSuitable 0, Event.checkSuitable 1],
         Except.ok graphicsDeviceA) := by
  refine ⟨pickPhysicalDevice_snd hne, ?_, rfl⟩
  intro hall
  rw [pickPhysicalDevice_snd hne, firstWhere_none hall]

/-- Witness for C2 at the spec's worked example list. -/
theorem C2_witness :
    pickPhysicalDevice [computeOnlyDevice, graphicsDeviceA, graphicsDeviceB] =
      ([Event.checkSuitable 0, Event.checkSuitable 1],
       Except.ok graphicsDeviceA) :=
  (C2_pick_first_suitable
    [computeOnlyDevice, graphicsDeviceA, graphicsDeviceB] (by decide)).2.2

/-- C3: the layer check succeeds iff every requested layer name exactly
matches an installed one (the requested set is a subset of the
installed set); it is false as soon as the first requested layer is
missing, whatever follows; and removing a required layer from the host
flips a true result to false. -/
theorem C3_layer_support_iff_subset (L I : List String) :
    (checkValidationLayerSupport L I = true ↔ ∀ l ∈ L, l ∈ I)
    ∧ (∀ r ∈ L, checkValidationLayerSupport L I = true →
        checkValidationLayerSupport L (I.filter fun x => x ≠ r) = false)
    ∧ (∀ layerName rest, layerFoundLoop layerName I = false →
        checkValidationLayerSupport (layerName :: rest) I = false) := by
  refine ⟨checkValidationLayerSupport_iff L I, ?_, ?_⟩
  · intro r hr _
    by_contra hc
    rw [Bool.not_eq_false] at hc
    have hmem := (checkValidationLayerSupport_iff L _).mp hc r hr
    simp at hmem
  · intro layerName rest hf
    simp [checkValidationLayerSupport, hf]

/-- Witness for C3: the single validation layer, present then removed. -/
theorem C3_witness :
    checkValidationLayerSupport validationLayers
      (["VK_LAYER_KHRONOS_validation"].filter
        fun x => x ≠ "VK_LAYER_KHRONOS_validation") = false :=
  (C3_layer_support_iff_subset validationLayers
      ["VK_LAYER_KHRONOS_validation"]).2.1
    "VK_LAYER_KHRONOS_validation" (by decide) (by decide)

/-- C4: the required-extension list is the windowing collaborator's
list unchanged when diagnostics are disabled, and that list followed
in order (no reordering, no deduplication) by the diagnostics-utilities
extension and the two portability extensions when enabled. -/
theorem C4_required_extensions (glfwExtensions : List String) :
    getRequiredExtensions glfwExtensions false = glfwExtensions
    ∧ getRequiredExtensions glfwExtensions true =
        glfwExtensions ++
          [VK_EXT_DEBUG_UTILS_EXTENSION_NAME,
           VK_KHR_PORTABILITY_ENUMERATION_EXTENSION_NAME,
           VK_KHR_GET_PHYSICAL_DEVICE_PROPERTIES_2_EXTENSION_NAME] :=
  ⟨rfl, rfl⟩

lemma createInstance_mem {e : Bool} {host : Host} {ev : Event}
    (h : ev ∈ (createInstance e host).1) :
    ev = Event.callCreateInstance ∨ ev = Event.create Handle.Instance := by
  unfold createInstance at h
  split at h
  · cases h
  · split at h <;> simp at h <;> tauto

lemma setupDebugMessenger_mem {e : Bool} {host : Host} {ev : Event}
    (h : ev ∈ (setupDebugMessenger e host).1) :
    ev = Event.create Handle.DebugMessenger := by
  unfold setupDebugMessenger at h
  split at h
  · cases h
  · split at h <;> simp at h
    exact h

/-- A host with the validation layer missing; used as the C5 witness. -/
def hostNoLayers : Host :=
  { installedLayers := [], devices := [graphicsDeviceA],
    instanceCreateOk := true, debugMessengerOk := true,
    deviceCreateOk := true }

/-- A host that reports zero devices; used as the C6 witness. -/
def hostNoDevices : Host :=
  { installedLayers := ["VK_LAYER_KHRONOS_validation"], devices := [],
    instanceCreateOk := true, debugMessengerOk := true,
    deviceCreateOk := true }

/-- A fully functional host; used as the C7 witness. -/
def hostGood : Host :=
  { installedLayers := ["VK_LAYER_KHRONOS_validation"],
    devices := [graphicsDeviceA], instanceCreateOk := true,
    debugMessengerOk := true, deviceCreateOk := true }

/-- C5: when diagnostics are enabled and the layer check fails,
instance creation fails with `ConfigurationError` before the
`vkCreateInstance` call is issued — its trace is empty, so no call
that would create a handle is issued and no instance handle is
created on this path. -/
theorem C5_config_error_before_any_call (host : Host)
    (h : checkValidationLayerSupport validationLayers host.installedLayers =
      false) :
    createInstance true host = ([], Except.error BootError.ConfigurationError)
    ∧ Event.callCreateInstance ∉ (createInstance true host).1
    ∧ Event.create Handle.Instance ∉ (createInstance true host).1 := by
  have he : createInstance true host =
      ([], Except.error BootError.ConfigurationError) := by
    unfold createInstance
    simp [h]
  refine ⟨he, ?_, ?_⟩ <;> rw [he] <;> simp

/-- Witness for C5: a host with no installed layers. -/
theorem C5_witness :
    createInstance true hostNoLayers =
      ([], Except.error BootError.ConfigurationError) :=
  (C5_config_error_before_any_call hostNoLayers (by decide)).1

/-- C6: on a host reporting zero accelerators, enumeration fails with
`NoDeviceFound`; no suitability check (and hence no per-device
queue-family query) is ever performed and no logical device is
created; when the earlier steps succeed, the whole bootstrap surfaces
`NoDeviceFound`. -/
theorem C6_no_device_found (e : Bool) (host : Host)
    (h : host.devices = []) :
    pickPhysicalDevice host.devices =
      ([], Except.error BootError.NoDeviceFound)
    ∧ (∀ i, Event.checkSuitable i ∉ (initVulkan e host).1)
    ∧ Event.create Handle.Device ∉ (initVulkan e host).1
    ∧ (∀ u1 u2 : Unit, (createInstance e host).2 = Except.ok u1 →
        (setupDebugMessenger e host).2 = Except.ok u2 →
        (initVulkan e host).2 = Except.error BootError.NoDeviceFound) := by
  have hp : pickPhysicalDevice host.devices =
      ([], Except.error BootError.NoDeviceFound) := by
    rw [h]
    rfl
  have hmem : ∀ ev ∈ (initVulkan e host).1,
      ev = Event.callCreateInstance ∨ ev = Event.create Handle.Instance ∨
        ev = Event.create Handle.DebugMessenger := by
    intro ev hev
    rcases hCI : createInstance e host with ⟨tr1, r1⟩
    have hCIm : ∀ x ∈ tr1,
        x = Event.callCreateInstance ∨ x = Event.create Handle.Instance := by
      intro x hx
      refine @createInstance_mem e host x ?_
      rw [hCI]
      exact hx
    cases r1 with
    | error e1 =>
      rw [initVulkan_eq_instErr hCI] at hev
      rcases hCIm ev (by simpa using hev) with h' | h'
      · exact Or.inl h'
      · exact Or.inr (Or.inl h')
    | ok u1 =>
      rcases hDM : setupDebugMessenger e host with ⟨tr2, r2⟩
      have hDMm : ∀ x ∈ tr2, x = Event.create Handle.DebugMessenger := by
        intro x hx
        refine @setupDebugMessenger_mem e host x ?_
        rw [hDM]
        exact hx
      cases r2 with
      | error e2 =>
        rw [initVulkan_eq_msgErr hCI hDM] at hev
        rcases List.mem_append.mp (by simpa using hev) with h' | h'
        · rcases hCIm ev h' with h2 | h2
          · exact Or.inl h2
          · exact Or.inr (Or.inl h2)
        · exact Or.inr (Or.inr (hDMm ev h'))
      | ok u2 =>
        rw [initVulkan_eq_pickErr hCI hDM hp] at hev
        simp only [List.append_nil] at hev
        rcases List.mem_append.mp (by simpa using hev) with h' | h'
        · rcases hCIm ev h' with h2 | h2
          · exact Or.inl h2
          · exact Or.inr (Or.inl h2)
        · exact Or.inr (Or.inr (hDMm ev h'))
  refine ⟨hp, ?_, ?_, ?_⟩
  · intro i hin
    rcases hmem _ hin with h' | h' | h' <;> cases h'
  · intro hin
    rcases hmem _ hin with h' | h' | h' <;> cases h'
  · intro u1 u2 h1 h2
    rcases hCI : createInstance e host with ⟨tr1, r1⟩
    rw [hCI] at h1
    simp only at h1
    subst h1
    rcases hDM : setupDebugMessenger e host with ⟨tr2, r2⟩
    rw [hDM] at h2
    simp only at h2
    subst h2
    rw [initVulkan_eq_pickErr hCI hDM hp]

/-- Witness for C6: the zero-device host with diagnostics enabled. -/
theorem C6_witness :
    pickPhysicalDevice hostNoDevices.devices =
      ([], Except.error BootError.NoDeviceFound) :=
  (C6_no_device_found true hostNoDevices rfl).1

lemma createdHandles_nil : createdHandles [] = [] := rfl

lemma destroyedHandles_nil : destroyedHandles [] = [] := rfl

lemma createdHandles_cons (ev : Event) (tr : List Event) :
    createdHandles (ev :: tr) =
      (match ev with | Event.create h => [h] | _ => []) ++
        createdHandles tr := by
  cases ev <;> rfl

lemma destroyedHandles_cons (ev : Event) (tr : List Event) :
    destroyedHandles (ev :: tr) =
      (match ev with | Event.destroy h => [h] | _ => []) ++
        destroyedHandles tr := by
  cases ev <;> rfl

/-- C7: on every normal exit, teardown releases the owned handles in
the exact reverse of their creation order — logical device first, then
the diagnostics messenger (only when diagnostics were enabled), then
the instance, then the windowing resources — and consequently the
device's and messenger's validity intervals are nested inside the
instance's. -/
theorem C7_teardown_reverse_order (e : Bool) (host : Host)
    (h : (run e host).2 = Except.ok ()) :
    createdHandles (run e host).1 =
        [Handle.Glfw, Handle.Window, Handle.Instance] ++
          (if e then [Handle.DebugMessenger] else []) ++ [Handle.Device]
    ∧ destroyedHandles (run e host).1 =
        (createdHandles (run e host).1).reverse
    ∧ intervalNested (run e host).1 Handle.Instance Handle.Device
    ∧ (e = true →
        intervalNested (run e host).1 Handle.Instance
          Handle.DebugMessenger) := by
  rcases hR : run e host with ⟨trR, rR⟩
  rw [hR] at h
  simp only at h
  subst h
  obtain ⟨pe, htr, hev⟩ := run_ok hR
  have hpc := createdHandles_of_checks hev
  have hpd := destroyedHandles_of_checks hev
  dsimp only
  subst htr
  cases e with
  | false =>
    refine ⟨?_, ?_, ?_, ?_⟩
    · simp [createdHandles_append, createdHandles_cons, createdHandles_nil,
        hpc, initWindowTrace, cleanupTrace]
    · simp [createdHandles_append, createdHandles_cons, createdHandles_nil,
        destroyedHandles_append, destroyedHandles_cons, destroyedHandles_nil,
        hpc, hpd, initWindowTrace, cleanupTrace]
    · refine ⟨[Event.create Handle.Glfw, Event.create Handle.Window,
        Event.callCreateInstance],
        pe ++ [Event.create Handle.Device, Event.destroy Handle.Device],
        [Event.destroy Handle.Window, Event.destroy Handle.Glfw],
        ?_, ?_, ?_⟩
      · simp [initWindowTrace, cleanupTrace]
      · simp
      · simp
    · intro hcontra
      cases hcontra
  | true =>
    refine ⟨?_, ?_, ?_, ?_⟩
    · simp [createdHandles_append, createdHandles_cons, createdHandles_nil,
        hpc, initWindowTrace, cleanupTrace]
    · simp [createdHandles_append, createdHandles_cons, createdHandles_nil,
        destroyedHandles_append, destroyedHandles_cons, destroyedHandles_nil,
        hpc, hpd, initWindowTrace, cleanupTrace]
    · refine ⟨[Event.create Handle.Glfw, Event.create Handle.Window,
        Event.callCreateInstance],
        Event.create Handle.DebugMessenger ::
          (pe ++ [Event.create Handle.Device, Event.destroy Handle.Device,
            Event.destroy Handle.DebugMessenger]),
        [Event.destroy Handle.Window, Event.destroy Handle.Glfw],
        ?_, ?_, ?_⟩
      · simp [initWindowTrace, cleanupTrace]
      · simp
      · simp
    · intro _
      refine ⟨[Event.create Handle.Glfw, Event.create Handle.Window,
        Event.callCreateInstance],
        Event.create Handle.DebugMessenger ::
          (pe ++ [Event.create Handle.Device, Event.destroy Handle.Device,
            Event.destroy Handle.DebugMessenger]),
        [Event.destroy Handle.Window, Event.destroy Handle.Glfw],
        ?_, ?_, ?_⟩
      · simp [initWindowTrace, cleanupTrace]
      · simp
      · simp

/-- Witness for C7: the fully functional host with diagnostics on. -/
theorem C7_witness :
    createdHandles (run true hostGood).1 =
      [Handle.Glfw, Handle.Window, Handle.Instance] ++
        (if true then [Handle.DebugMessenger] else []) ++ [Handle.Device] :=
  (C7_teardown_reverse_order true hostGood rfl).1

/-- C8: every bootstrap error aborts the run — `main` exits with the
nonzero `EXIT_FAILURE`, the error message reaches the error sink, and
no handle acquired before the failure is released on that path — while
a clean shutdown exits with code 0. -/
theorem C8_fatal_errors_no_cleanup (e : Bool) (host : Host) :
    (∀ err : BootError, (run e host).2 = Except.error err →
      (main e host).exitCode = EXIT_FAILURE
      ∧ EXIT_FAILURE ≠ 0
      ∧ (main e host).errOutput = [err.message]
      ∧ ∀ hd, Event.destroy hd ∉ (run e host).1)
    ∧ ((run e host).2 = Except.ok () →
        (main e host).exitCode = EXIT_SUCCESS ∧ EXIT_SUCCESS = 0) := by
  constructor
  · intro err h
    have hm : main e host =
        { exitCode := EXIT_FAILURE, errOutput := [err.message] } := by
      unfold main
      rw [h]
    have hnd : ∀ hd, Event.destroy hd ∉ (run e host).1 := by
      intro hd
      rcases hIV : initVulkan e host with ⟨trV, rV⟩
      have hIVn : Event.destroy hd ∉ trV := by
        have hn := @initVulkan_no_destroy e host hd
        rw [hIV] at hn
        exact hn
      cases rV with
      | error e1 =>
        rw [run_eq_err hIV]
        simp [initWindowTrace, hIVn]
      | ok u =>
        cases u
        rw [run_eq_ok hIV] at h
        simp at h
    exact ⟨by rw [hm], by decide, by rw [hm], hnd⟩
  · intro h
    have hm : main e host = { exitCode := EXIT_SUCCESS, errOutput := [] } := by
      unfold main
      rw [h]
    exact ⟨by rw [hm], rfl⟩

/-- Witness for C8: the layer-missing host aborts with a nonzero exit
code, the message on the error sink, and no destroy event. -/
theorem C8_witness :
    (main true hostNoLayers).exitCode = EXIT_FAILURE
    ∧ EXIT_FAILURE ≠ 0
    ∧ (main true hostNoLayers).errOutput =
        [BootError.ConfigurationError.message]
    ∧ ∀ hd, Event.destroy hd ∉ (run true hostNoLayers).1 :=
  (C8_fatal_errors_no_cleanup true hostNoLayers).1
    BootError.ConfigurationError rfl

/-- C9: when device selection succeeds, the retained device satisfies
the suitability predicate, which is definitionally the completeness of
its (deterministically re-computed) queue-family record; hence the
`graphicsFamily.value()` reads inside `createLogicalDevice` cannot hit
an empty optional. -/
theorem C9_selected_device_value_safe (devices : List PhysicalDevice)
    (evs : List Event) (d : PhysicalDevice)
    (h : pickPhysicalDevice devices = (evs, Except.ok d)) :
    isDeviceSuitable d = (findQueueFamilies d.queueFamilies).isComplete
    ∧ (findQueueFamilies d.queueFamilies).graphicsFamily.isSome = true
    ∧ ∀ (e : Bool) (host : Host),
        (createLogicalDevice e host d).2 ≠
          Except.error BootError.BadOptionalAccess := by
  have hs := pickPhysicalDevice_ok_suitable h
  have hsome :
      (findQueueFamilies d.queueFamilies).graphicsFamily.isSome = true := by
    unfold isDeviceSuitable QueueFamilyIndices.isComplete at hs
    exact hs
  refine ⟨rfl, hsome, ?_⟩
  intro e host
  unfold createLogicalDevice
  rcases hgf : (findQueueFamilies d.queueFamilies).graphicsFamily with _ | j
  · rw [hgf] at hsome
    simp at hsome
  · by_cases hok : host.deviceCreateOk = true
    · simp [hok]
    · simp only [Bool.not_eq_true] at hok
      simp [hok]

/-- Witness for C9 on a one-device host. -/
theorem C9_witness :
    (findQueueFamilies graphicsDeviceA.queueFamilies).graphicsFamily.isSome =
      true :=
  (C9_selected_device_value_safe [graphicsDeviceA] [Event.checkSuitable 0]
    graphicsDeviceA rfl).2.1

/-- C10: whenever `findQueueFamilies` returns a held index, that index
is within the table's bounds and names a graphics-capable family; when
no family is graphics-capable the holder is empty and `isComplete` is
false. -/
theorem C10_returned_index_valid (table : List QueueFamilyProperties) :
    (∀ i, (findQueueFamilies table).graphicsFamily = some i →
      i < table.length ∧
        ∃ qf, table.get? i = some qf ∧ supportsGraphics qf = true)
    ∧ ((∀ qf ∈ table, supportsGraphics qf = false) →
        (findQueueFamilies table).graphicsFamily = none
        ∧ (findQueueFamilies table).isComplete = false) := by
  constructor
  · intro i hi
    rw [findQueueFamilies_eq_firstIndexWhere] at hi
    exact firstIndexWhere_some hi
  · intro hall
    have hn : (findQueueFamilies table).graphicsFamily = none := by
      rw [findQueueFamilies_eq_firstIndexWhere]
      exact firstIndexWhere_none hall
    refine ⟨hn, ?_⟩
    unfold QueueFamilyIndices.isComplete
    rw [hn]
    rfl

/-- Witness for C10 at a one-family table. -/
theorem C10_witness :
    0 < [graphicsFamilyExample].length ∧
      ∃ qf, [graphicsFamilyExample].get? 0 = some qf ∧
        supportsGraphics qf = true :=
  (C10_returned_index_valid [graphicsFamilyExample]).1 0 (by decide)

end VulkanBoot
